import Mathlib

/-!
Verification development for the upload form component in
`src/Front-end/proposal-frontend/components/DocumentUpload.js`.

The component is embedded shallowly: its React `useState` fields become one
record `ComponentState`; each event handler becomes a pure function from the
prior state (plus the inputs the browser or the network would supply: the
selected file, the request outcome, the current timestamp, the random id) to
the next state together with its visible effects (alert dialog, clearing the
file input, whether a network request was issued).  JavaScript truthiness on
`x || d` is modelled explicitly for strings, numbers and lists.
-/

namespace DocumentUpload

/-- A file chosen in the file input: its name and binary content. -/
structure SelectedFile where
  name : String
  content : List Nat
deriving Repr, DecidableEq

/-- One extracted keyword with its 0-1 relevance score
(`keywords` entries of the JSON response). -/
structure Keyword where
  keyword : String
  relevance_score : Rat
deriving Repr, DecidableEq

/-- The `evaluation` object of the JSON response. -/
structure Evaluation where
  decision : String
  technical_fit_score : Rat
  budget_fit_score : Rat
  timeline_fit_score : Rat
  capacity_fit_score : Rat
  overall_fit_score : Rat
  reasoning : String
deriving Repr, DecidableEq

/-- The `rfp_metadata` object of the JSON response; every field optional. -/
structure RfpMetadata where
  budget_in_inr : Option Int
  timeline_weeks : Option Int
  team_size_required : Option Int
  extraction_confidence : Option String
  extraction_notes : Option String
deriving Repr, DecidableEq

/-- The `documentInfo` record the component builds on a successful upload. -/
structure DocumentInfo where
  filename : String
  upload_date : String
  keyword_count : Nat
  id : Int
  status : String
deriving Repr, DecidableEq

/-- `response.data` of the POST: every field optional, the component applies
client-side fallbacks. -/
structure ResponseData where
  filename : Option String
  upload_date : Option String
  id : Option Int
  status : Option String
  keywords : Option (List Keyword)
  summary : Option String
  evaluation : Option Evaluation
  rfp_metadata : Option RfpMetadata
deriving Repr, DecidableEq

/-- The ten `useState` fields of `DocumentUpload`. -/
structure ComponentState where
  file : Option SelectedFile
  fileName : String
  loading : Bool
  keywords : List Keyword
  error : String
  documentInfo : Option DocumentInfo
  summary : String
  evaluation : Option Evaluation
  extractedMetadata : Option RfpMetadata
  isSuccess : Bool
deriving Repr, DecidableEq

/-- The initial values passed to `useState` on mount. -/
def initialState : ComponentState :=
  { file := none
  , fileName := ""
  , loading := false
  , keywords := []
  , error := ""
  , documentInfo := none
  , summary := ""
  , evaluation := none
  , extractedMetadata := none
  , isSuccess := false }

/-- JavaScript `x || d` for an optional string: a missing value and the empty
string (both falsy) fall back to the default. -/
def jsOrStr : Option String → String → String
  | none, d => d
  | some s, d => if s = "" then d else s

/-- JavaScript `x || d` for an optional integer: a missing value and `0`
(both falsy) fall back to the default. -/
def jsOrInt : Option Int → Int → Int
  | none, d => d
  | some n, d => if n = 0 then d else n

/-- JavaScript `x || d` for an optional natural number (used for
`response.data.keywords?.length || 0`). -/
def jsOrNat : Option Nat → Nat → Nat
  | none, d => d
  | some n, d => if n = 0 then d else n

/-- Helper for `fileExtension`: the characters after the last dot (the
remaining segment of `split` at each dot, with `pop` taking the last one). -/
def extAux : List Char → List Char → List Char
  | [], acc => acc
  | c :: rest, acc => if c = '.' then extAux rest [] else extAux rest (acc ++ [c])

/-- `selectedFile.name.split(".").pop()?.toLowerCase()`: the lower-cased part
of the name after its last dot (the whole name when it has no dot, empty when
the name ends in a dot). -/
def fileExtension (name : String) : String :=
  String.mk ((extAux name.data []).map Char.toLower)

/-- The `allowedExtensions` array in `handleFileChange`. -/
def allowedExtensions : List String := ["pdf", "docx", "txt"]

/-- The alert text for a rejected file type. -/
def invalidTypeAlert : String :=
  "Invalid file type. Please select a PDF, DOCX, or TXT file."

/-- The alert text when submitting without a file. -/
def noFileAlert : String := "Please select a file to upload."

/-- The fixed inline error message set by the catch branch of `handleSubmit`. -/
def uploadErrorMessage : String :=
  "Failed to upload and process document. Please try again. Check server status."

/-- The outcome of `handleFileChange`: the next component state, the alert
shown (if any), whether `e.target.value` was cleared, and whether a network
request was issued (`handleFileChange` performs no network call, so this is
`false` on every path). -/
structure FileChangeResult where
  state : ComponentState
  alert : Option String
  inputCleared : Bool
  requestSent : Bool
deriving Repr, DecidableEq

/-- `handleFileChange(e)`: `e.target.files?.[0]` is the optional selected
file.  `setIsSuccess(false)` runs before the file check; with a file present,
the extension is validated against `allowedExtensions`; a valid file is
stored with its name and the prior error is cleared; an invalid one triggers
the alert, clears the input value and the stored file and name. -/
def handleFileChange (s : ComponentState) (files : Option SelectedFile) :
    FileChangeResult :=
  let s0 := { s with isSuccess := false }
  match files with
  | none =>
      { state := s0, alert := none, inputCleared := false, requestSent := false }
  | some selectedFile =>
      let fileExt := fileExtension selectedFile.name
      if fileExt != ("") && allowedExtensions.contains fileExt then
        { state := { s0 with
              file := some selectedFile
            , fileName := selectedFile.name
            , error := "" }
        , alert := none, inputCleared := false, requestSent := false }
      else
        { state := { s0 with file := none, fileName := "" }
        , alert := some invalidTypeAlert
        , inputCleared := true
        , requestSent := false }

/-- What the awaited `axios.post` comes back with: parsed JSON data on a 2xx
response, or a thrown error (network failure or non-2xx status). -/
inductive RequestOutcome where
  | success (data : ResponseData)
  | failure
deriving Repr, DecidableEq

/-- The block of `set*` calls at the start of `handleSubmit`, executed once
the file check has passed: loading on, success flag off, error and every
result field back to its initial empty value. -/
def submitClearState (s : ComponentState) : ComponentState :=
  { s with
      loading := true
    , isSuccess := false
    , error := ""
    , keywords := []
    , documentInfo := none
    , summary := ""
    , evaluation := none
    , extractedMetadata := none }

/-- The outcome of `handleSubmit`: next state, alert shown (if any), and
whether the POST was issued. -/
structure SubmitResult where
  state : ComponentState
  alert : Option String
  requestSent : Bool
deriving Repr, DecidableEq

/-- `handleSubmit(e)`: with no file, alert and early return (no request, no
state change).  Otherwise clear all result state, POST the file, and either
populate the five result fields from `response.data` with the fallback
defaults (`fileName`, ISO timestamp `now`, `randomId`, `"PROCESSED"`, count
0) or set the fixed error message; `finally` clears the loading flag. -/
def handleSubmit (s : ComponentState) (outcome : RequestOutcome)
    (now : String) (randomId : Int) : SubmitResult :=
  match s.file with
  | none =>
      { state := s, alert := some noFileAlert, requestSent := false }
  | some _ =>
      let s1 := submitClearState s
      match outcome with
      | .success data =>
          let info : DocumentInfo :=
            { filename := jsOrStr data.filename s1.fileName
            , upload_date := jsOrStr data.upload_date now
            , keyword_count := jsOrNat (data.keywords.map List.length) 0
            , id := jsOrInt data.id randomId
            , status := jsOrStr data.status ("PROCESSED") }
          let s2 := { s1 with
              documentInfo := some info
            , keywords := data.keywords.getD []
            , summary := jsOrStr data.summary ""
            , evaluation := data.evaluation
            , extractedMetadata := data.rfp_metadata
            , isSuccess := true }
          { state := { s2 with loading := false }
          , alert := none, requestSent := true }
      | .failure =>
          { state := { s1 with
                error := uploadErrorMessage
              , isSuccess := false
              , loading := false }
          , alert := none, requestSent := true }

/-- `handleReset()`: every field back to its initial value. -/
def handleReset (_s : ComponentState) : ComponentState :=
  { file := none
  , fileName := ""
  , loading := false
  , error := ""
  , keywords := []
  , documentInfo := none
  , summary := ""
  , evaluation := none
  , extractedMetadata := none
  , isSuccess := false }

/-- The inline style of a decision badge. -/
structure BadgeStyle where
  backgroundColor : String
  color : String
deriving Repr, DecidableEq

/-- A JavaScript value as it flows out of a bracket lookup on an object
literal: a proper value of the literal's own keys, a member inherited from
`Object.prototype` (a function or object, hence truthy), or `undefined`. -/
inductive JsVal (α : Type) where
  | val (v : α)
  | protoMember (name : String)
  | undef
deriving Repr, DecidableEq

/-- Modelled from the spec of the platform (ECMA-262, not repository code):
the property keys every object literal inherits from `Object.prototype`, so
that bracket lookup on them yields a truthy member rather than
`undefined`. -/
def objectProtoKeys : List String :=
  ["constructor", "hasOwnProperty", "isPrototypeOf", "propertyIsEnumerable",
   "toLocaleString", "toString", "valueOf", "__proto__", "__defineGetter__",
   "__defineSetter__", "__lookupGetter__", "__lookupSetter__"]

/-- JavaScript bracket lookup `obj[key]` on an object literal with own keys
`own`: an own key yields its value; otherwise the prototype chain is
consulted, so an `Object.prototype` key yields the inherited truthy member
and anything else yields `undefined`. -/
def jsGet (own : String → Option α) (key : String) : JsVal α :=
  match own key with
  | some v => JsVal.val v
  | none =>
      if objectProtoKeys.contains key then JsVal.protoMember key
      else JsVal.undef

/-- JavaScript `a || b` on lookup results: a proper value is kept when
truthy (per the supplied truthiness of `α`), an inherited prototype member is
always truthy and kept, and `undefined` falls through to `b`. -/
def jsOrWith (truthy : α → Bool) (a b : JsVal α) : JsVal α :=
  match a with
  | JsVal.val v => if truthy v then JsVal.val v else b
  | JsVal.protoMember n => JsVal.protoMember n
  | JsVal.undef => b

/-- A rendered decision badge: its text and its style, each possibly an
inherited `Object.prototype` member when the decision string names one. -/
structure Badge where
  text : JsVal String
  style : JsVal BadgeStyle
deriving Repr, DecidableEq

/-- The own keys of the `decisionText` object literal of
`renderDecisionBadge`. -/
def decisionTextMap (d : String) : Option String :=
  if d = "ACCEPT" then some ("ACCEPT ✅")
  else if d = "REJECT" then some ("REJECT ❌")
  else if d = "REVIEW" then some ("REVIEW ⚠️")
  else none

/-- The own keys of the `styleMap` object literal of
`renderDecisionBadge`. -/
def styleMap (d : String) : Option BadgeStyle :=
  if d = "ACCEPT" then
    some { backgroundColor := "var(--success-bg)", color := "var(--success-color)" }
  else if d = "REJECT" then
    some { backgroundColor := "var(--error-bg)", color := "var(--error-color)" }
  else if d = "REVIEW" then
    some { backgroundColor := "var(--warning-bg)", color := "var(--warning-color)" }
  else none

/-- `renderDecisionBadge(decision)`: `styleMap[decision] || styleMap["REVIEW"]`
and `decisionText[decision] || decisionText["REVIEW"]`, with bracket lookup
traversing the prototype chain; strings are truthy when nonempty, style
objects always. -/
def renderDecisionBadge (decision : String) : Badge :=
  { text := jsOrWith (fun s => s != "") (jsGet decisionTextMap decision)
      (jsGet decisionTextMap ("REVIEW"))
  , style := jsOrWith (fun _ => true) (jsGet styleMap decision)
      (jsGet styleMap ("REVIEW")) }

/-- The ten decimal digit characters. -/
def digitChars : List Char :=
  ['0', '1', '2', '3', '4', '5', '6', '7', '8', '9']

/-- Pairs of digits, taken from the least significant end, beyond the last
three digits (Indian grouping). -/
def chunk2 : List Char → List (List Char)
  | [] => []
  | [c] => [[c]]
  | a :: b :: rest => [a, b] :: chunk2 rest

/-- Join digit groups with comma separators. -/
def joinComma : List (List Char) → List Char
  | [] => []
  | [g] => g
  | g :: gs => g ++ ',' :: joinComma gs

/-- Modelled from the spec: the digit-grouping part of
`Intl.NumberFormat("en-IN", currency INR, maximumFractionDigits 0)` (a
platform API, not repository code) on a natural number - decimal digits
grouped as the last three, then pairs, separated by commas, e.g.
`5,00,000`. -/
def formatIndianNat (n : Nat) : String :=
  let rev := (Nat.toDigits 10 n).reverse
  String.mk (joinComma ((rev.take 3 :: chunk2 (rev.drop 3)).reverse.map List.reverse))

/-- `formatINR(value)`: falsy (absent or zero) or non-positive values give
`"Unknown"`; otherwise the en-IN INR currency string with no fraction
digits. -/
def formatINR (value : Option Int) : String :=
  match value with
  | none => "Unknown"
  | some v => if v ≤ 0 then "Unknown" else "₹" ++ formatIndianNat v.toNat

/-- All result fields, the error message and the success flag hold their
initial empty values. -/
def resultFieldsCleared (s : ComponentState) : Prop :=
  s.keywords = [] ∧ s.documentInfo = none ∧ s.summary = ""
    ∧ s.evaluation = none ∧ s.extractedMetadata = none
    ∧ s.error = "" ∧ s.isSuccess = false

/-- A response with every optional field absent. -/
def emptyResponse : ResponseData :=
  { filename := none
  , upload_date := none
  , id := none
  , status := none
  , keywords := none
  , summary := none
  , evaluation := none
  , rfp_metadata := none }

/-! ## Helper lemmas -/

theorem digitChar_mem : ∀ d < 10, Nat.digitChar d ∈ digitChars := by decide

theorem toDigitsCore_chars (fuel : Nat) :
    ∀ (n : Nat) (ds : List Char), (∀ c ∈ ds, c ∈ digitChars) →
      ∀ c ∈ Nat.toDigitsCore 10 fuel n ds, c ∈ digitChars := by
  induction fuel with
  | zero =>
      intro n ds hds c hc
      simp [Nat.toDigitsCore] at hc
      exact hds c hc
  | succ fuel ih =>
      intro n ds hds c hc
      by_cases h : n / 10 = 0
      · simp [Nat.toDigitsCore, h] at hc
        rcases hc with rfl | hc
        · exact digitChar_mem _ (Nat.mod_lt _ (by decide))
        · exact hds c hc
      · simp [Nat.toDigitsCore, h] at hc
        refine ih (n / 10) (Nat.digitChar (n % 10) :: ds) ?_ c hc
        intro x hx
        rcases List.mem_cons.mp hx with rfl | hx'
        · exact digitChar_mem _ (Nat.mod_lt _ (by decide))
        · exact hds x hx'

theorem toDigits_chars (n : Nat) : ∀ c ∈ Nat.toDigits 10 n, c ∈ digitChars := by
  intro c hc
  have hc' : c ∈ Nat.toDigitsCore 10 (n + 1) n [] := by
    simpa [Nat.toDigits] using hc
  exact toDigitsCore_chars (n + 1) n [] (by simp) c hc'

theorem chunk2_chars : ∀ (l g : List Char), g ∈ chunk2 l → ∀ c ∈ g, c ∈ l
  | [], g, hg => by simp [chunk2] at hg
  | [a], g, hg => by
      simp [chunk2] at hg
      subst hg
      intro c hc
      simpa using hc
  | a :: b :: rest, g, hg => by
      intro c hc
      simp [chunk2] at hg
      rcases hg with rfl | hg
      · simp only [List.mem_cons, List.not_mem_nil, or_false] at hc
        rcases hc with rfl | rfl <;> simp
      · have hrec := chunk2_chars rest g hg c hc
        exact List.mem_cons_of_mem _ (List.mem_cons_of_mem _ hrec)

theorem joinComma_chars : ∀ (gs : List (List Char)) (c : Char),
    c ∈ joinComma gs → c = ',' ∨ ∃ g, g ∈ gs ∧ c ∈ g
  | [], c, hc => by simp [joinComma] at hc
  | [g], c, hc => by
      right
      exact ⟨g, by simp, by simpa [joinComma] using hc⟩
  | g :: g2 :: gs, c, hc => by
      simp [joinComma] at hc
      rcases hc with hc | rfl | hc
      · right; exact ⟨g, by simp, hc⟩
      · left; rfl
      · rcases joinComma_chars (g2 :: gs) c hc with h | ⟨g3, hg3, hcg⟩
        · left; exact h
        · right
          exact ⟨g3, List.mem_cons_of_mem _ hg3, hcg⟩

theorem formatIndianNat_chars (n : Nat) :
    ∀ c ∈ (formatIndianNat n).data, c = ',' ∨ c ∈ digitChars := by
  intro c hc
  have hdata : (formatIndianNat n).data
      = joinComma ((((Nat.toDigits 10 n).reverse.take 3
          :: chunk2 ((Nat.toDigits 10 n).reverse.drop 3)).reverse).map List.reverse) := rfl
  rw [hdata] at hc
  rcases joinComma_chars _ c hc with h | ⟨g, hg, hcg⟩
  · exact Or.inl h
  · right
    simp only [List.mem_map, List.mem_reverse, List.mem_cons] at hg
    rcases hg with ⟨g0, hg0, rfl⟩
    rw [List.mem_reverse] at hcg
    have hrev : c ∈ (Nat.toDigits 10 n).reverse := by
      rcases hg0 with rfl | hg0
      · exact List.take_subset _ _ hcg
      · exact List.drop_subset _ _ (chunk2_chars _ _ hg0 c hcg)
    rw [List.mem_reverse] at hrev
    exact toDigits_chars n c hrev

/-! ## Claim theorems -/

/-- Claim C9: `formatINR` is pure; an absent value and every non-positive
value (including 0) yield the string `"Unknown"`, and every positive value
yields the rupee sign followed by the Indian-grouped digits of the value,
with no decimal point in the output. -/
theorem C9_formatINR :
    formatINR none = "Unknown"
      ∧ (∀ v : Int, v ≤ 0 → formatINR (some v) = "Unknown")
      ∧ (∀ v : Int, 0 < v →
          formatINR (some v) = "₹" ++ formatIndianNat v.toNat
            ∧ formatINR (some v) ≠ "Unknown"
            ∧ (∀ c ∈ (formatINR (some v)).data, c = '₹' ∨ c = ',' ∨ c ∈ digitChars)
            ∧ '.' ∉ (formatINR (some v)).data) := by
  refine ⟨rfl, ?_, ?_⟩
  · intro v hv
    simp [formatINR, hv]
  · intro v hv
    have hne : ¬ v ≤ 0 := by omega
    have heq : formatINR (some v) = "₹" ++ formatIndianNat v.toNat := by
      simp [formatINR, hne]
    have hdata : (formatINR (some v)).data = '₹' :: (formatIndianNat v.toNat).data := by
      rw [heq]; rfl
    have hchars : ∀ c ∈ (formatINR (some v)).data, c = '₹' ∨ c = ',' ∨ c ∈ digitChars := by
      intro c hc
      rw [hdata] at hc
      rcases List.mem_cons.mp hc with rfl | hc'
      · exact Or.inl rfl
      · rcases formatIndianNat_chars _ c hc' with h | h
        · exact Or.inr (Or.inl h)
        · exact Or.inr (Or.inr h)
    refine ⟨heq, ?_, hchars, ?_⟩
    · intro h
      have hd := congrArg String.data h
      rw [hdata] at hd
      have hU : String.data "Unknown" = ['U', 'n', 'k', 'n', 'o', 'w', 'n'] := rfl
      rw [hU] at hd
      have : '₹' = 'U' := by
        injection hd
      exact absurd this (by decide)
    · intro hdot
      rcases hchars '.' hdot with h | h | h
      · exact absurd h (by decide)
      · exact absurd h (by decide)
      · exact absurd h (by decide)

/-- Claim C9 witness: zero gives `"Unknown"`, 500000 gives the Indian-locale
string `₹5,00,000`. -/
theorem C9_witness :
    formatINR (some 0) = "Unknown" ∧ formatINR (some 500000) = "₹5,00,000" := by
  constructor
  · exact C9_formatINR.2.1 0 (by decide)
  · have h := (C9_formatINR.2.2 500000 (by decide)).1
    rw [h]
    decide

/-- Claim C1 counterexample: the extension `doc` is in the set the claim
names, yet `handleFileChange` rejects `proposal.doc` - it alerts and clears
the selection instead of storing the file. -/
theorem C1_counterexample :
    fileExtension ("proposal.doc") = "doc"
      ∧ ("doc" ∈ (["pdf", "docx", "doc", "txt"] : List String))
      ∧ (handleFileChange initialState (some ⟨"proposal.doc", []⟩)).alert
          = some invalidTypeAlert
      ∧ (handleFileChange initialState (some ⟨"proposal.doc", []⟩)).state.file = none
      ∧ (handleFileChange initialState (some ⟨"proposal.doc", []⟩)).state.fileName
          = "" := by
  refine ⟨by decide, by decide, by decide, by decide, by decide⟩

/-- Claim C1 (amended): `handleFileChange` accepts a selected file (storing
it and its name and clearing the prior error) exactly when its extension,
compared case-insensitively, is in the set `{pdf, docx, txt}`; for an
extension outside that set it surfaces the blocking alert, clears the file
input and the selection, and a later `handleSubmit` from the resulting state
issues no request. -/
theorem C1_extension_gate (s : ComponentState) (f : SelectedFile) :
    (fileExtension f.name ∈ allowedExtensions →
        (handleFileChange s (some f)).state.file = some f
          ∧ (handleFileChange s (some f)).state.fileName = f.name
          ∧ (handleFileChange s (some f)).state.error = ""
          ∧ (handleFileChange s (some f)).alert = none)
      ∧ (fileExtension f.name ∉ allowedExtensions →
          (handleFileChange s (some f)).alert = some invalidTypeAlert
            ∧ (handleFileChange s (some f)).inputCleared = true
            ∧ (handleFileChange s (some f)).state.file = none
            ∧ (handleFileChange s (some f)).state.fileName = ""
            ∧ ∀ (outcome : RequestOutcome) (now : String) (randomId : Int),
                (handleSubmit (handleFileChange s (some f)).state
                    outcome now randomId).requestSent = false) := by
  constructor
  · intro hmem
    have hmem' : fileExtension f.name = "pdf" ∨ fileExtension f.name = "docx"
        ∨ fileExtension f.name = "txt" := by
      simpa [allowedExtensions] using hmem
    rcases hmem' with h | h | h <;>
      simp [handleFileChange, h, allowedExtensions]
  · intro hnot
    have h1 : fileExtension f.name ≠ "pdf" :=
      fun h => hnot (by simp [allowedExtensions, h])
    have h2 : fileExtension f.name ≠ "docx" :=
      fun h => hnot (by simp [allowedExtensions, h])
    have h3 : fileExtension f.name ≠ "txt" :=
      fun h => hnot (by simp [allowedExtensions, h])
    refine ⟨?_, ?_, ?_, ?_, ?_⟩ <;>
      simp [handleFileChange, handleSubmit, allowedExtensions,
        List.contains, h1, h2, h3]

/-- Claim C1 witness: a file named `Notes.TXT` is stored; `archive.zip`
triggers the alert. -/
theorem C1_witness :
    (handleFileChange initialState (some ⟨"Notes.TXT", []⟩)).state.file
        = some ⟨"Notes.TXT", []⟩
      ∧ (handleFileChange initialState (some ⟨"archive.zip", []⟩)).alert
        = some invalidTypeAlert :=
  ⟨((C1_extension_gate initialState ⟨"Notes.TXT", []⟩).1 (by decide)).1,
   ((C1_extension_gate initialState ⟨"archive.zip", []⟩).2 (by decide)).1⟩

/-- Claim C2: the `set*` block at the start of a submission clears every
result field, the error and the success flag to their initial empty values
(while turning loading on and keeping the selected file), and `handleReset`
returns the full initial state, whatever the prior state was. -/
theorem C2_clear_and_reset (s : ComponentState) :
    resultFieldsCleared (submitClearState s)
      ∧ (submitClearState s).loading = true
      ∧ (submitClearState s).file = s.file
      ∧ (submitClearState s).fileName = s.fileName
      ∧ handleReset s = initialState :=
  ⟨⟨rfl, rfl, rfl, rfl, rfl, rfl, rfl⟩, rfl, rfl, rfl, rfl⟩

/-- Claim C3: when the POST fails, `handleSubmit` sets the fixed error
message, clears the success flag, leaves every result field in its cleared
state, and clears loading. -/
theorem C3_failure_clears_results (s : ComponentState) (f : SelectedFile)
    (now : String) (randomId : Int) (h : s.file = some f) :
    (handleSubmit s RequestOutcome.failure now randomId).state.error
        = uploadErrorMessage
      ∧ (handleSubmit s RequestOutcome.failure now randomId).state.isSuccess = false
      ∧ (handleSubmit s RequestOutcome.failure now randomId).state.documentInfo = none
      ∧ (handleSubmit s RequestOutcome.failure now randomId).state.keywords = []
      ∧ (handleSubmit s RequestOutcome.failure now randomId).state.summary = ""
      ∧ (handleSubmit s RequestOutcome.failure now randomId).state.evaluation = none
      ∧ (handleSubmit s RequestOutcome.failure now randomId).state.extractedMetadata
        = none
      ∧ (handleSubmit s RequestOutcome.failure now randomId).state.loading = false := by
  refine ⟨?_, ?_, ?_, ?_, ?_, ?_, ?_, ?_⟩ <;>
    simp [handleSubmit, h, submitClearState]

/-- Claim C3 witness: a concrete failed submission ends with the fixed error
message and no document info. -/
theorem C3_witness :
    (handleSubmit { initialState with file := some ⟨"a.pdf", []⟩ }
        RequestOutcome.failure ("2024-01-01T00:00:00Z") 7).state.error
        = uploadErrorMessage
      ∧ (handleSubmit { initialState with file := some ⟨"a.pdf", []⟩ }
          RequestOutcome.failure ("2024-01-01T00:00:00Z") 7).state.documentInfo
        = none :=
  ⟨(C3_failure_clears_results _ ⟨"a.pdf", []⟩ _ _ rfl).1,
   (C3_failure_clears_results _ ⟨"a.pdf", []⟩ _ _ rfl).2.2.1⟩

/-- Claim C4: on a successful response with every optional field absent,
document info is populated entirely from the client-side fallbacks: the
stored filename, the current timestamp, the random id, status `PROCESSED`
and keyword count 0. -/
theorem C4_fallback_defaults (s : ComponentState) (f : SelectedFile)
    (now : String) (randomId : Int) (h : s.file = some f) :
    (handleSubmit s (RequestOutcome.success emptyResponse) now randomId).state.documentInfo
      = some { filename := s.fileName
             , upload_date := now
             , keyword_count := 0
             , id := randomId
             , status := "PROCESSED" } := by
  simp [handleSubmit, h, emptyResponse, jsOrStr, jsOrInt, jsOrNat, submitClearState]

/-- Claim C4 witness: concrete empty response, concrete fallbacks. -/
theorem C4_witness :
    (handleSubmit
        { initialState with file := some ⟨"b.txt", []⟩, fileName := "b.txt" }
        (RequestOutcome.success emptyResponse) ("2024-05-05T10:00:00Z") 42).state.documentInfo
      = some { filename := "b.txt"
             , upload_date := "2024-05-05T10:00:00Z"
             , keyword_count := 0
             , id := 42
             , status := "PROCESSED" } :=
  C4_fallback_defaults _ ⟨"b.txt", []⟩ _ _ rfl

/-- Claim C5: for every submission that issues the request, loading is false
when the handler completes, whether the request succeeded or failed. -/
theorem C5_loading_cleared (s : ComponentState) (f : SelectedFile)
    (outcome : RequestOutcome) (now : String) (randomId : Int)
    (h : s.file = some f) :
    (handleSubmit s outcome now randomId).state.loading = false := by
  cases outcome <;> simp [handleSubmit, h, submitClearState]

/-- Claim C5 witness: loading ends false on a concrete success and on a
concrete failure. -/
theorem C5_witness :
    (handleSubmit { initialState with file := some ⟨"a.pdf", []⟩ }
        (RequestOutcome.success emptyResponse) ("t0") 1).state.loading = false
      ∧ (handleSubmit { initialState with file := some ⟨"a.pdf", []⟩ }
          RequestOutcome.failure ("t0") 1).state.loading = false :=
  ⟨C5_loading_cleared _ ⟨"a.pdf", []⟩ _ _ _ rfl,
   C5_loading_cleared _ ⟨"a.pdf", []⟩ _ _ _ rfl⟩

/-- Claim C6: submitting with no selected file alerts and is otherwise a
no-op: the state is returned unchanged and no request is issued. -/
theorem C6_no_file_noop (s : ComponentState) (outcome : RequestOutcome)
    (now : String) (randomId : Int) (h : s.file = none) :
    handleSubmit s outcome now randomId
      = { state := s, alert := some noFileAlert, requestSent := false } := by
  simp [handleSubmit, h]

/-- Claim C6 witness: submitting the initial state issues no request and
changes nothing. -/
theorem C6_witness :
    handleSubmit initialState RequestOutcome.failure ("t0") 0
      = { state := initialState, alert := some noFileAlert, requestSent := false } :=
  C6_no_file_noop initialState RequestOutcome.failure ("t0") 0 rfl

/-- Claim C7 counterexample: with the success flag previously true, selecting
a file with a rejected extension does change a state field other than the
selection - the success flag is cleared to false. -/
theorem C7_counterexample :
    ({ initialState with isSuccess := true } : ComponentState).isSuccess = true
      ∧ (handleFileChange { initialState with isSuccess := true }
            (some ⟨"archive.rar", []⟩)).alert = some invalidTypeAlert
      ∧ (handleFileChange { initialState with isSuccess := true }
            (some ⟨"archive.rar", []⟩)).state.isSuccess = false := by
  refine ⟨rfl, by decide, by decide⟩

/-- Claim C7 (amended): on a wrong-extension selection, `handleFileChange`
alerts immediately, attempts no network call, and changes nothing beyond
clearing the invalid selection (file, filename, input value) and the success
flag, which it unconditionally clears; every other state field keeps its
prior value. -/
theorem C7_invalid_frame (s : ComponentState) (f : SelectedFile)
    (hnot : fileExtension f.name ∉ allowedExtensions) :
    (handleFileChange s (some f)).alert = some invalidTypeAlert
      ∧ (handleFileChange s (some f)).requestSent = false
      ∧ (handleFileChange s (some f)).inputCleared = true
      ∧ (handleFileChange s (some f)).state.file = none
      ∧ (handleFileChange s (some f)).state.fileName = ""
      ∧ (handleFileChange s (some f)).state.isSuccess = false
      ∧ (handleFileChange s (some f)).state.loading = s.loading
      ∧ (handleFileChange s (some f)).state.keywords = s.keywords
      ∧ (handleFileChange s (some f)).state.error = s.error
      ∧ (handleFileChange s (some f)).state.documentInfo = s.documentInfo
      ∧ (handleFileChange s (some f)).state.summary = s.summary
      ∧ (handleFileChange s (some f)).state.evaluation = s.evaluation
      ∧ (handleFileChange s (some f)).state.extractedMetadata
        = s.extractedMetadata := by
  have h1 : fileExtension f.name ≠ "pdf" :=
    fun h => hnot (by simp [allowedExtensions, h])
  have h2 : fileExtension f.name ≠ "docx" :=
    fun h => hnot (by simp [allowedExtensions, h])
  have h3 : fileExtension f.name ≠ "txt" :=
    fun h => hnot (by simp [allowedExtensions, h])
  refine ⟨?_, ?_, ?_, ?_, ?_, ?_, ?_, ?_, ?_, ?_, ?_, ?_, ?_⟩ <;>
    simp [handleFileChange, allowedExtensions, List.contains, h1, h2, h3]

/-- Claim C7 witness: a rejected `data.csv` selection keeps the prior error
text and sends nothing. -/
theorem C7_witness :
    (handleFileChange { initialState with error := "previous error" }
        (some ⟨"data.csv", []⟩)).state.error = "previous error"
      ∧ (handleFileChange { initialState with error := "previous error" }
          (some ⟨"data.csv", []⟩)).requestSent = false :=
  ⟨(C7_invalid_frame _ ⟨"data.csv", []⟩ (by decide)).2.2.2.2.2.2.2.2.1,
   (C7_invalid_frame _ ⟨"data.csv", []⟩ (by decide)).2.1⟩

/-- Claim C8 counterexample: the input `toString` is not one of the three
recognized decisions, yet the source does not fall back to the REVIEW
presentation - `styleMap["toString"]` and `decisionText["toString"]` are the
truthy members inherited from `Object.prototype`, and `||` keeps them. -/
theorem C8_counterexample :
    (renderDecisionBadge ("toString")).style = JsVal.protoMember ("toString")
      ∧ (renderDecisionBadge ("toString")).text = JsVal.protoMember ("toString")
      ∧ (renderDecisionBadge ("REVIEW")).style
        = JsVal.val { backgroundColor := "var(--warning-bg)"
                    , color := "var(--warning-color)" }
      ∧ (renderDecisionBadge ("toString")).style
        ≠ (renderDecisionBadge ("REVIEW")).style := by
  refine ⟨by decide, by decide, by decide, by decide⟩

/-- Claim C8 (amended): `renderDecisionBadge` maps `ACCEPT`, `REJECT` and
`REVIEW` to their own label and style; every other string that does not name
an inherited `Object.prototype` property (such as `PENDING`) gets the REVIEW
label and style; a string naming an inherited `Object.prototype` property
(such as `toString`) instead yields that truthy inherited member for both
text and style, because the `||` fallback never triggers. -/
theorem C8_decision_badge :
    renderDecisionBadge ("ACCEPT")
        = { text := JsVal.val ("ACCEPT ✅")
          , style := JsVal.val { backgroundColor := "var(--success-bg)"
                               , color := "var(--success-color)" } }
      ∧ renderDecisionBadge ("REJECT")
        = { text := JsVal.val ("REJECT ❌")
          , style := JsVal.val { backgroundColor := "var(--error-bg)"
                               , color := "var(--error-color)" } }
      ∧ renderDecisionBadge ("REVIEW")
        = { text := JsVal.val ("REVIEW ⚠️")
          , style := JsVal.val { backgroundColor := "var(--warning-bg)"
                               , color := "var(--warning-color)" } }
      ∧ (∀ d : String, d ≠ "ACCEPT" → d ≠ "REJECT" → d ≠ "REVIEW" →
          d ∉ objectProtoKeys →
          renderDecisionBadge d
            = { text := JsVal.val ("REVIEW ⚠️")
              , style := JsVal.val { backgroundColor := "var(--warning-bg)"
                                   , color := "var(--warning-color)" } })
      ∧ (∀ d : String, d ≠ "ACCEPT" → d ≠ "REJECT" → d ≠ "REVIEW" →
          d ∈ objectProtoKeys →
          renderDecisionBadge d
            = { text := JsVal.protoMember d
              , style := JsVal.protoMember d }) := by
  refine ⟨by decide, by decide, by decide, ?_, ?_⟩
  · intro d hA hR hV hnp
    simp [renderDecisionBadge, jsGet, jsOrWith, decisionTextMap, styleMap,
      hA, hR, hV, hnp]
  · intro d hA hR hV hp
    simp [renderDecisionBadge, jsGet, jsOrWith, decisionTextMap, styleMap,
      hA, hR, hV, hp]

/-- Claim C8 witness: the unrecognized value `PENDING` renders as REVIEW,
while the inherited key `valueOf` yields the prototype member. -/
theorem C8_witness :
    renderDecisionBadge ("PENDING")
        = { text := JsVal.val ("REVIEW ⚠️")
          , style := JsVal.val { backgroundColor := "var(--warning-bg)"
                               , color := "var(--warning-color)" } }
      ∧ renderDecisionBadge ("valueOf")
        = { text := JsVal.protoMember ("valueOf")
          , style := JsVal.protoMember ("valueOf") } :=
  ⟨C8_decision_badge.2.2.2.1 ("PENDING")
      (by decide) (by decide) (by decide) (by decide),
   C8_decision_badge.2.2.2.2 ("valueOf")
      (by decide) (by decide) (by decide) (by decide)⟩

/-- Claim C10: after every successful submission the stored keyword count
equals the length of the stored keyword list, both derived from
`response.data.keywords`. -/
theorem C10_keyword_count_matches (s : ComponentState) (f : SelectedFile)
    (data : ResponseData) (now : String) (randomId : Int)
    (h : s.file = some f) :
    ((handleSubmit s (RequestOutcome.success data) now randomId).state.documentInfo).map
        DocumentInfo.keyword_count
      = some (handleSubmit s (RequestOutcome.success data)
          now randomId).state.keywords.length := by
  cases hk : data.keywords with
  | none => simp [handleSubmit, h, hk, jsOrNat]
  | some l =>
      simp [handleSubmit, h, hk, jsOrNat]
      intro hl
      simp [hl]

/-- Claim C10 witness: a one-keyword response yields count 1 and a
one-element list. -/
theorem C10_witness :
    ((handleSubmit { initialState with file := some ⟨"c.pdf", []⟩ }
        (RequestOutcome.success { emptyResponse with
            keywords := some [{ keyword := "cloud", relevance_score := 1 }] })
        ("t0") 3).state.documentInfo).map DocumentInfo.keyword_count
      = some 1 := by
  have h := C10_keyword_count_matches
      { initialState with file := some ⟨"c.pdf", []⟩ } ⟨"c.pdf", []⟩
      { emptyResponse with keywords := some [{ keyword := "cloud", relevance_score := 1 }] }
      ("t0") 3 rfl
  rw [h]
  decide

end DocumentUpload
